import Mathlib

/-!
Shallow embedding of the token lifecycle, revocation registry, access gate
and the auth/book routes of the FastAPI application, together with proofs
of the specified properties.

Time is modelled in whole epoch seconds (the code truncates timestamps to
int). The symmetric JWT signature is modelled by recording the signing key
inside the token: decoding with a key succeeds exactly when the keys match,
which is the observable behaviour of HMAC signing with a fixed algorithm.
The redis store is a map from key to absolute expiry instant; a key set
with a time-to-live of ttl at time now expires at now + ttl, and EXISTS
reports it only strictly before that instant.
-/

namespace App

/-- Identity snapshot embedded in a token payload (uid is the string form
of the user uuid, as built in the login route). -/
structure UserClaims where
  uid : String
  email : String
  username : String
deriving DecidableEq

/-- The JWT claim bag produced by create_tokens: exactly the four keys
user, exp, jti, refresh. -/
structure Payload where
  user : UserClaims
  exp : Nat
  jti : String
  refresh : Bool
deriving DecidableEq

/-- Python dict lookup of an integer-valued entry of the payload dict.
The dict built in create_tokens has exactly the keys user, exp, jti and
refresh; the only integer-valued one is exp, so any other key is absent
(a KeyError in Python). -/
def Payload.lookupInt (p : Payload) (k : String) : Option Nat :=
  if k = "exp" then some p.exp else none

/-- A JWT as seen by the application: either a well-formed token signed
with some key, or an unparseable string. -/
inductive Token where
  | signed (payload : Payload) (key : String)
  | malformed (raw : String)
deriving DecidableEq

/-- Failure modes of jwt.decode that the code catches. -/
inductive JwtError where
  | invalidSignature
  | malformed
  | expired
deriving DecidableEq

/-- Semantics of jwt.decode(token, key, [HS256]): parsing and signature are
checked first (InvalidTokenError), then the exp claim; the token is expired
exactly when exp ≤ now (PyJWT raises ExpiredSignatureError when
exp ≤ now − leeway, with leeway 0). -/
def jwtDecode (key : String) (tok : Token) (now : Nat) : Except JwtError Payload :=
  match tok with
  | .malformed _ => .error .malformed
  | .signed p k =>
    if k ≠ key then .error .invalidSignature
    else if p.exp ≤ now then .error .expired
    else .ok p

/-- create_tokens(user_data, expiry, refresh) evaluated at time now with a
fresh uuid jti: builds the payload with exp = now + expiry and signs it. -/
def create_tokens (key : String) (user_data : UserClaims) (expiry : Nat)
    (refresh : Bool) (now : Nat) (jti : String) : Token :=
  .signed { user := user_data, exp := now + expiry, jti := jti, refresh := refresh } key

/-- decode_token: returns the payload, and None on every decode failure
(expired, invalid, or any other exception — all branches return None). -/
def decode_token (key : String) (tok : Token) (now : Nat) : Option Payload :=
  match jwtDecode key tok now with
  | .ok p => some p
  | .error _ => none

/-- The revocation registry: key ↦ absolute expiry instant of the entry. -/
def RedisStore := String → Option Nat

def RedisStore.empty : RedisStore := fun _ => none

/-- redis SET name value EX ttl issued at time now: the key expires at the
absolute instant expireAt = now + ttl. -/
def RedisStore.setEx (s : RedisStore) (k : String) (expireAt : Nat) : RedisStore :=
  fun q => if q = k then some expireAt else s q

/-- redis EXISTS at time now: an entry counts only strictly before its
expiry instant. -/
def RedisStore.existsAt (s : RedisStore) (k : String) (now : Nat) : Bool :=
  match s k with
  | some e => decide (now < e)
  | none => false

/-- black_list_jti(jti, expiry) at time now: ttl = expiry − now as a Python
int; if ttl ≤ 0 return without touching the store, else SET jti "revoked"
EX ttl. -/
def black_list_jti (jti : String) (expiry : Nat) (now : Nat) (store : RedisStore) :
    RedisStore :=
  let ttl : Int := (expiry : Int) - (now : Int)
  if ttl ≤ 0 then store
  else store.setEx jti (now + ttl.toNat)

/-- is_revoked(jti): redis EXISTS check. -/
def is_revoked (store : RedisStore) (now : Nat) (jti : String) : Bool :=
  store.existsAt jti now

/-- An HTTPException as raised by the routes and dependencies. -/
structure HTTPError where
  status : Nat
  detail : String
deriving DecidableEq

/-- The parsed Authorization header: scheme and credential. -/
structure Cred where
  scheme : String
  credentials : Token
deriving DecidableEq

/-- The part of the request the gate looks at. -/
structure Request where
  authorization : Option Cred
deriving DecidableEq

deriving instance DecidableEq for Except

/-- str.lower() restricted to what Char.toLower does, applied over the
characters of the scheme string. -/
def strToLower (s : String) : String :=
  String.mk (s.data.map Char.toLower)

/-- fastapi.security.HTTPBearer with auto_error: a missing credential is
rejected 403 "Not authenticated"; a scheme other than bearer is rejected
403 "Invalid authentication credentials". -/
def httpBearer (req : Request) : Except HTTPError Token :=
  match req.authorization with
  | none => .error ⟨403, "Not authenticated"⟩
  | some c =>
    if strToLower c.scheme ≠ "bearer" then
      .error ⟨403, "Invalid authentication credentials"⟩
    else .ok c.credentials

/-- Which bearer subclass handles the endpoint: the base TokenBearer does
no kind check, AccessTokenBearer requires refresh = false,
RefreshTokenBearer requires refresh = true. -/
inductive BearerKind where
  | base
  | accessOnly
  | refreshOnly
deriving DecidableEq

/-- verify_token of the bearer subclasses: the base class passes;
AccessTokenBearer rejects refresh tokens 400; RefreshTokenBearer rejects
access tokens 400. -/
def verify_token : BearerKind → Payload → Except HTTPError Unit
  | .base, _ => .ok ()
  | .accessOnly, p =>
    if p.refresh then .error ⟨400, "access token required"⟩ else .ok ()
  | .refreshOnly, p =>
    if !p.refresh then .error ⟨400, "refresh token requried"⟩ else .ok ()

/-- TokenBearer.__call__: extract the bearer credential, decode it (None →
401 "invalid token"), check the revocation registry (revoked → 403), then
run the subclass kind check, and return the payload. -/
def tokenBearerCall (kind : BearerKind) (key : String) (store : RedisStore)
    (now : Nat) (req : Request) : Except HTTPError Payload :=
  match httpBearer req with
  | .error e => .error e
  | .ok tok =>
    match decode_token key tok now with
    | none => .error ⟨401, "invalid token"⟩
    | some payload =>
      if is_revoked store now payload.jti then
        .error ⟨403, "token revoked login again"⟩
      else
        match verify_token kind payload with
        | .error e => .error e
        | .ok _ => .ok payload

/-- A user uuid value (abstract: only identity matters). -/
abbrev Uuid := Nat

/-- str() applied to a uuid value. -/
def uuidStr (u : Uuid) : String := toString u

/-- A row of the users table (the fields the auth flow reads). -/
structure DBUser where
  uid : Uuid
  username : String
  firstname : String
  lastname : String
  email : String
  hashed_password : String
  role : String
deriving DecidableEq

/-- AuthService.get_user_by_email: select the user whose email matches. -/
def get_user_by_email (db : List DBUser) (email : String) : Option DBUser :=
  db.find? (fun u => u.email == email)

/-- AuthService.user_exists. -/
def user_exists (db : List DBUser) (email : String) : Bool :=
  (get_user_by_email db email).isSome

/-- The login request body. -/
structure UserLogin where
  email : String
  password : String
deriving DecidableEq

/-- AuthService.verify_login: absent user and wrong password both return
None; the secret check is the bcrypt verify, passed in as a function. -/
def verify_login (verify : String → String → Bool) (db : List DBUser)
    (login_data : UserLogin) : Option DBUser :=
  match get_user_by_email db login_data.email with
  | none => none
  | some user =>
    if verify login_data.password user.hashed_password then some user else none

/-- The body returned by the login route on success. -/
structure LoginResponse where
  access_token : Token
  refresh_token : Token
  message : String
  user : UserClaims
deriving DecidableEq

/-- The /auth/login route: verify_login, 401 "invalid credentials" on None,
else an access token (15 minutes) and a refresh token (7 days) over the
same identity snapshot. jtiA and jtiR are the fresh uuids drawn inside the
two create_tokens calls. -/
def login (verify : String → String → Bool) (key : String) (db : List DBUser)
    (login_data : UserLogin) (now : Nat) (jtiA jtiR : String) :
    Except HTTPError LoginResponse :=
  match verify_login verify db login_data with
  | none => .error ⟨401, "invalid credentials"⟩
  | some user =>
    let snapshot : UserClaims := ⟨uuidStr user.uid, user.email, user.username⟩
    .ok { access_token := create_tokens key snapshot (15 * 60) false now jtiA
          refresh_token := create_tokens key snapshot (7 * 24 * 60 * 60) true now jtiR
          message := "login successful"
          user := snapshot }

/-- The signup request body. -/
structure UserCreate where
  username : String
  firstname : String
  lastname : String
  email : String
  password : String
deriving DecidableEq

/-- hash_password: bcrypt accepts at most 72 bytes of utf-8; beyond that a
ValueError is raised, otherwise the hash (passed in as a function) is
computed. -/
def hash_password (hash : String → String) (password : String) :
    Except String String :=
  if password.utf8ByteSize > 72 then
    .error "password too long for bcrypt (max 72 bytes)"
  else .ok (hash password)

/-- The /auth/signup route: duplicate email → 403; a ValueError from the
password hash → 400 with its message; else the created row (uid drawn by
the database). -/
def signup (hash : String → String) (db : List DBUser) (user_data : UserCreate)
    (newUid : Uuid) : Except HTTPError DBUser :=
  if user_exists db user_data.email then
    .error ⟨403, "user with email already exists"⟩
  else
    match hash_password hash user_data.password with
    | .error msg => .error ⟨400, msg⟩
    | .ok hp =>
      .ok { uid := newUid, username := user_data.username
            firstname := user_data.firstname, lastname := user_data.lastname
            email := user_data.email, hashed_password := hp, role := "user" }

/-- RoleChecker.__call__: 403 when the role of the resolved user is not in
the allowed list, else True. -/
def roleChecker (allowed_roles : List String) (user : DBUser) :
    Except HTTPError Bool :=
  if user.role ∉ allowed_roles then .error ⟨403, "you are not authorized"⟩
  else .ok true

/-- The body returned by the refresh_token route on success. -/
structure RefreshResponse where
  access_token : Token
deriving DecidableEq

/-- The /auth/refresh_token route: RefreshTokenBearer gate, then
exp = payload["expiry"] — the payload dict has no such key, so the lookup
raises KeyError, surfaced by the framework as a 500 response; the
remaining lines (the exp comparison and the new access token) run only
when the lookup yields a value. -/
def refreshRoute (key : String) (store : RedisStore) (now : Nat)
    (req : Request) (newJti : String) : Except HTTPError RefreshResponse :=
  match tokenBearerCall .refreshOnly key store now req with
  | .error e => .error e
  | .ok payload =>
    match payload.lookupInt "expiry" with
    | none => .error ⟨500, "Internal Server Error"⟩
    | some e =>
      if now ≥ e then .error ⟨403, "token expired"⟩
      else .ok ⟨create_tokens key payload.user (15 * 60) false now newJti⟩

/-- A row of the books table (the fields the routes read). -/
structure Book where
  uid : Uuid
  user_uid : Option Uuid
  title : String
  author : String
deriving DecidableEq

/-- services.get_book_by_id: select the book whose uid matches. -/
def get_book_by_id (books : List Book) (book_id : Uuid) : Option Book :=
  books.find? (fun b => b.uid == book_id)

/-- A Python runtime value, for comparisons whose two sides come from
different types: uuid.UUID, str, or None. -/
inductive PyVal where
  | pyUuid (u : Uuid)
  | pyStr (s : String)
  | pyNone
deriving DecidableEq

/-- Python equality: values of different types (a uuid.UUID and a str,
or None and anything else) are never equal. -/
def pyEq : PyVal → PyVal → Bool
  | .pyUuid a, .pyUuid b => a == b
  | .pyStr a, .pyStr b => a == b
  | .pyNone, .pyNone => true
  | _, _ => false

/-- The Python value of the user_uid column (an Optional uuid). -/
def pyOfUuidOpt : Option Uuid → PyVal
  | some u => .pyUuid u
  | none => .pyNone

/-- str() applied to the user_uid column value (str(None) is "None"). -/
def pyStrOfUuidOpt : Option Uuid → String
  | some u => uuidStr u
  | none => "None"

/-- The PATCH /books/book_id request body (partial update). -/
structure BookUpdate where
  title : Option String
  author : Option String
deriving DecidableEq

/-- services.update_book applied to a found book: set the supplied fields. -/
def applyBookUpdate (b : Book) (u : BookUpdate) : Book :=
  { b with title := u.title.getD b.title, author := u.author.getD b.author }

/-- The PATCH /books/book_id route body after the access gate: 404 when
the book is absent; 403 unless book.user_uid != payload["user"]["uid"] is
falsy — the left side is a uuid.UUID (or None) and the right side a str,
compared with Python equality; else the updated book. -/
def update_book_route (books : List Book) (book_id : Uuid) (body : BookUpdate)
    (payload : Payload) : Except HTTPError Book :=
  match get_book_by_id books book_id with
  | none => .error ⟨404, "invalid book-id"⟩
  | some book =>
    if !pyEq (pyOfUuidOpt book.user_uid) (.pyStr payload.user.uid) then
      .error ⟨403, "only book owner is allowed to perform this"⟩
    else .ok (applyBookUpdate book body)

/-- The DELETE /books/book_id route body after the access gate: the code
dereferences book.user_uid without a None check, so an absent book raises
AttributeError (a 500); otherwise 403 unless str(book.user_uid) equals the
payload uid string; else services.delete_book removes the found book and
the route returns its success message. -/
def delete_book_route (books : List Book) (book_id : Uuid) (payload : Payload) :
    Except HTTPError String :=
  match get_book_by_id books book_id with
  | none => .error ⟨500, "Internal Server Error"⟩
  | some book =>
    if pyStrOfUuidOpt book.user_uid ≠ payload.user.uid then
      .error ⟨403, "only book owner is allowed to perform this"⟩
    else .ok "book deleted successfully"

/-- The GET /books/ route body after the gates: all books; 404 "no books
found" when the list is empty (Python falsiness of an empty list). -/
def get_books_route (books : List Book) : Except HTTPError (List Book) :=
  if books.isEmpty then .error ⟨404, "no books found"⟩ else .ok books

/-- services.get_books_by_user: the rows whose user_uid column equals the
uid string of the payload (the ORM coerces the bound string to a uuid;
modelled through the string image of the column). -/
def get_books_by_user (books : List Book) (user_uid : String) : List Book :=
  books.filter (fun b => pyStrOfUuidOpt b.user_uid == user_uid)

/-- The GET /books/my_books route body after the gates: the requester
books; 404 "no books found" when that list is empty. -/
def get_my_books_route (books : List Book) (payload : Payload) :
    Except HTTPError (List Book) :=
  let mine := get_books_by_user books payload.user.uid
  if mine.isEmpty then .error ⟨404, "no books found"⟩ else .ok mine

/-! Helper lemmas shared by several proofs. -/

theorem strToLower_Bearer : strToLower "Bearer" = "bearer" := by decide

theorem httpBearer_bearer (tok : Token) :
    httpBearer ⟨some ⟨"Bearer", tok⟩⟩ = .ok tok := by
  simp [httpBearer, strToLower_Bearer]

theorem decode_token_signed_valid (key : String) (p : Payload) (now : Nat)
    (h : now < p.exp) : decode_token key (.signed p key) now = some p := by
  have h1 : ¬ (p.exp ≤ now) := by omega
  simp [decode_token, jwtDecode, h1]

theorem decode_token_signed_expired (key : String) (p : Payload) (now : Nat)
    (h : p.exp ≤ now) :
    jwtDecode key (.signed p key) now = .error .expired ∧
    decode_token key (.signed p key) now = none := by
  constructor <;> simp [decode_token, jwtDecode, h]

theorem tokenBearerCall_signed_valid (kind : BearerKind) (key : String)
    (store : RedisStore) (now : Nat) (p : Payload) (hexp : now < p.exp) :
    tokenBearerCall kind key store now ⟨some ⟨"Bearer", .signed p key⟩⟩
      = if is_revoked store now p.jti then
          .error ⟨403, "token revoked login again"⟩
        else
          match verify_token kind p with
          | .error e => .error e
          | .ok _ => .ok p := by
  simp [tokenBearerCall, httpBearer_bearer, decode_token_signed_valid key p now hexp]

theorem black_list_jti_future (jti : String) (exp now : Nat) (store : RedisStore)
    (h : now < exp) :
    black_list_jti jti exp now store = store.setEx jti exp := by
  have hx : ¬ ((exp : Int) - (now : Int) ≤ 0) := by omega
  simp [black_list_jti, hx]
  have hy : now + (exp - now) = exp := by omega
  rw [hy]

/-- C1: decoding the token produced by create_tokens(claims, d, refresh :=
false) at any time strictly before issuance + d yields a payload whose user
field is the original claims and whose refresh field is false; at or after
issuance + d, jwt.decode takes the ExpiredSignatureError branch and
decode_token reports the failure (None). -/
theorem c1_issue_then_verify (key : String) (claims : UserClaims)
    (d now t : Nat) (jti : String) (hd : 0 < d) :
    (t < now + d →
      decode_token key (create_tokens key claims d false now jti) t
        = some { user := claims, exp := now + d, jti := jti, refresh := false }) ∧
    (now + d ≤ t →
      jwtDecode key (create_tokens key claims d false now jti) t = .error .expired ∧
      decode_token key (create_tokens key claims d false now jti) t = none) := by
  refine ⟨fun ht => ?_, fun ht => ?_⟩
  · have h1 : ¬ (now + d ≤ t) := by omega
    simp [decode_token, jwtDecode, create_tokens, h1]
  · simpa [create_tokens] using
      decode_token_signed_expired key ⟨claims, now + d, jti, false⟩ t ht

theorem c1_issue_then_verify_witness :
    0 < 5 ∧
    decode_token "k" (create_tokens "k" ⟨"u", "e", "n"⟩ 5 false 10 "j") 12
      = some { user := ⟨"u", "e", "n"⟩, exp := 15, jti := "j", refresh := false } ∧
    decode_token "k" (create_tokens "k" ⟨"u", "e", "n"⟩ 5 false 10 "j") 15 = none :=
  ⟨by decide,
   (c1_issue_then_verify "k" ⟨"u", "e", "n"⟩ 5 10 12 "j" (by decide)).1 (by decide),
   ((c1_issue_then_verify "k" ⟨"u", "e", "n"⟩ 5 10 15 "j" (by decide)).2 (by decide)).2⟩

/-- C2: after black_list_jti(jti, exp) runs at a time before exp,
is_revoked(jti) is true at every instant before exp, and the gate
(TokenBearer.__call__, any subclass) rejects every token carrying that jti
with 403 "token revoked login again" at every instant strictly before the
natural expiry exp; from exp on, the token itself is expired and the gate
rejects it as an invalid token instead. -/
theorem c2_blacklist_gate_rejects (key jti : String) (u : UserClaims) (r : Bool)
    (exp now t : Nat) (store : RedisStore) (kind : BearerKind)
    (hnow : now < exp) :
    (t < exp → is_revoked (black_list_jti jti exp now store) t jti = true) ∧
    (t < exp →
      tokenBearerCall kind key (black_list_jti jti exp now store) t
        ⟨some ⟨"Bearer", .signed ⟨u, exp, jti, r⟩ key⟩⟩
        = .error ⟨403, "token revoked login again"⟩) ∧
    (exp ≤ t →
      tokenBearerCall kind key (black_list_jti jti exp now store) t
        ⟨some ⟨"Bearer", .signed ⟨u, exp, jti, r⟩ key⟩⟩
        = .error ⟨401, "invalid token"⟩) := by
  have hset := black_list_jti_future jti exp now store hnow
  have hrev : ∀ s : Nat, s < exp →
      is_revoked (black_list_jti jti exp now store) s jti = true := by
    intro s hs
    rw [hset]
    simp [is_revoked, RedisStore.existsAt, RedisStore.setEx, hs]
  refine ⟨fun ht => hrev t ht, fun ht => ?_, fun ht => ?_⟩
  · rw [tokenBearerCall_signed_valid kind key _ t ⟨u, exp, jti, r⟩ ht, hrev t ht]
    simp
  · have hdec := (decode_token_signed_expired key ⟨u, exp, jti, r⟩ t ht).2
    simp [tokenBearerCall, httpBearer_bearer, hdec]

theorem c2_blacklist_gate_rejects_witness :
    (10 : Nat) < 100 ∧
    is_revoked (black_list_jti "j" 100 10 RedisStore.empty) 50 "j" = true ∧
    tokenBearerCall .accessOnly "k" (black_list_jti "j" 100 10 RedisStore.empty) 50
      ⟨some ⟨"Bearer", .signed ⟨⟨"u", "e", "n"⟩, 100, "j", false⟩ "k"⟩⟩
      = .error ⟨403, "token revoked login again"⟩ ∧
    tokenBearerCall .accessOnly "k" (black_list_jti "j" 100 10 RedisStore.empty) 100
      ⟨some ⟨"Bearer", .signed ⟨⟨"u", "e", "n"⟩, 100, "j", false⟩ "k"⟩⟩
      = .error ⟨401, "invalid token"⟩ :=
  ⟨by decide,
   (c2_blacklist_gate_rejects "k" "j" ⟨"u", "e", "n"⟩ false 100 10 50
      RedisStore.empty .accessOnly (by decide)).1 (by decide),
   (c2_blacklist_gate_rejects "k" "j" ⟨"u", "e", "n"⟩ false 100 10 50
      RedisStore.empty .accessOnly (by decide)).2.1 (by decide),
   (c2_blacklist_gate_rejects "k" "j" ⟨"u", "e", "n"⟩ false 100 10 100
      RedisStore.empty .accessOnly (by decide)).2.2 (by decide)⟩

/-- C3 counterexample: a token that is both revoked and of the wrong kind
(a refresh token at the access-only gate) is rejected with the 403
revocation error, not the 400 wrong-kind error, because the code runs the
revocation lookup before verify_token. -/
theorem c3_counterexample :
    tokenBearerCall .accessOnly "k" (RedisStore.setEx RedisStore.empty "j" 100) 0
      ⟨some ⟨"Bearer", .signed ⟨⟨"u", "e", "n"⟩, 100, "j", true⟩ "k"⟩⟩
      = .error ⟨403, "token revoked login again"⟩ ∧
    (Except.error ⟨403, "token revoked login again"⟩ : Except HTTPError Payload)
      ≠ .error ⟨400, "access token required"⟩ :=
  ⟨by decide, by decide⟩

/-- C3 amended: a verifiable token of the wrong kind is rejected with the
400 wrong-kind error provided its identifier is not revoked; the
revocation lookup precedes the kind check, so a token that is both revoked
and of the wrong kind is rejected with the 403 revocation error. -/
theorem c3_wrong_kind_rejection (key : String) (store : RedisStore) (now : Nat)
    (u : UserClaims) (exp : Nat) (jti : String) (hexp : now < exp) :
    (is_revoked store now jti = false →
      tokenBearerCall .accessOnly key store now
        ⟨some ⟨"Bearer", .signed ⟨u, exp, jti, true⟩ key⟩⟩
        = .error ⟨400, "access token required"⟩ ∧
      tokenBearerCall .refreshOnly key store now
        ⟨some ⟨"Bearer", .signed ⟨u, exp, jti, false⟩ key⟩⟩
        = .error ⟨400, "refresh token requried"⟩) ∧
    (is_revoked store now jti = true →
      tokenBearerCall .accessOnly key store now
        ⟨some ⟨"Bearer", .signed ⟨u, exp, jti, true⟩ key⟩⟩
        = .error ⟨403, "token revoked login again"⟩) := by
  refine ⟨fun hrev => ⟨?_, ?_⟩, fun hrev => ?_⟩
  · rw [tokenBearerCall_signed_valid .accessOnly key store now ⟨u, exp, jti, true⟩ hexp]
    simp [hrev, verify_token]
  · rw [tokenBearerCall_signed_valid .refreshOnly key store now ⟨u, exp, jti, false⟩ hexp]
    simp [hrev, verify_token]
  · rw [tokenBearerCall_signed_valid .accessOnly key store now ⟨u, exp, jti, true⟩ hexp]
    simp [hrev]

theorem c3_wrong_kind_rejection_witness :
    (0 : Nat) < 100 ∧
    is_revoked RedisStore.empty 0 "j" = false ∧
    tokenBearerCall .accessOnly "k" RedisStore.empty 0
      ⟨some ⟨"Bearer", .signed ⟨⟨"u", "e", "n"⟩, 100, "j", true⟩ "k"⟩⟩
      = .error ⟨400, "access token required"⟩ ∧
    tokenBearerCall .refreshOnly "k" RedisStore.empty 0
      ⟨some ⟨"Bearer", .signed ⟨⟨"u", "e", "n"⟩, 100, "j", false⟩ "k"⟩⟩
      = .error ⟨400, "refresh token requried"⟩ :=
  ⟨by decide, by decide,
   ((c3_wrong_kind_rejection "k" RedisStore.empty 0 ⟨"u", "e", "n"⟩ 100 "j"
      (by decide)).1 (by decide)).1,
   ((c3_wrong_kind_rejection "k" RedisStore.empty 0 ⟨"u", "e", "n"⟩ 100 "j"
      (by decide)).1 (by decide)).2⟩

/-- C4: the payload dict carries its expiration under the key exp, but the
refresh_token route reads payload["expiry"]; the lookup finds no such key
(KeyError), so every call with a valid, unexpired, non-revoked refresh
token ends in the unhandled-exception 500 response instead of a new access
token. -/
theorem c4_refresh_endpoint_keyerror (key : String) (store : RedisStore)
    (u : UserClaims) (exp now : Nat) (jti newJti : String)
    (hexp : now < exp) (hrev : is_revoked store now jti = false) :
    (∀ p : Payload, p.lookupInt "expiry" = none) ∧
    refreshRoute key store now
      ⟨some ⟨"Bearer", .signed ⟨u, exp, jti, true⟩ key⟩⟩ newJti
      = .error ⟨500, "Internal Server Error"⟩ := by
  have hkey : ∀ p : Payload, p.lookupInt "expiry" = none := by
    intro p
    simp [Payload.lookupInt]
  refine ⟨hkey, ?_⟩
  unfold refreshRoute
  rw [tokenBearerCall_signed_valid .refreshOnly key store now ⟨u, exp, jti, true⟩ hexp]
  simp [hrev, verify_token, hkey]

theorem c4_refresh_endpoint_keyerror_witness :
    (0 : Nat) < 100 ∧
    is_revoked RedisStore.empty 0 "j" = false ∧
    refreshRoute "k" RedisStore.empty 0
      ⟨some ⟨"Bearer", .signed ⟨⟨"u", "e", "n"⟩, 100, "j", true⟩ "k"⟩⟩ "j2"
      = .error ⟨500, "Internal Server Error"⟩ :=
  ⟨by decide, by decide,
   (c4_refresh_endpoint_keyerror "k" RedisStore.empty ⟨"u", "e", "n"⟩ 100 0 "j" "j2"
      (by decide) (by decide)).2⟩

/-- C5: a login attempt against an absent email and a login attempt against
a registered email with a wrong secret produce the same 401 response with
the same body, so the two failure causes are indistinguishable. -/
theorem c5_login_indistinguishable (verify : String → String → Bool)
    (key : String) (db : List DBUser) (e1 p1 e2 p2 : String) (now : Nat)
    (jA jR : String) (u : DBUser)
    (h1 : get_user_by_email db e1 = none)
    (h2 : get_user_by_email db e2 = some u)
    (h3 : verify p2 u.hashed_password = false) :
    login verify key db ⟨e1, p1⟩ now jA jR = .error ⟨401, "invalid credentials"⟩ ∧
    login verify key db ⟨e2, p2⟩ now jA jR = .error ⟨401, "invalid credentials"⟩ ∧
    login verify key db ⟨e1, p1⟩ now jA jR = login verify key db ⟨e2, p2⟩ now jA jR := by
  have hl1 : login verify key db ⟨e1, p1⟩ now jA jR
      = .error ⟨401, "invalid credentials"⟩ := by
    simp [login, verify_login, h1]
  have hl2 : login verify key db ⟨e2, p2⟩ now jA jR
      = .error ⟨401, "invalid credentials"⟩ := by
    simp [login, verify_login, h2, h3]
  exact ⟨hl1, hl2, by rw [hl1, hl2]⟩

theorem c5_login_indistinguishable_witness :
    get_user_by_email [⟨1, "n", "f", "l", "a@b.com", "H", "user"⟩] "x@y.com" = none ∧
    get_user_by_email [⟨1, "n", "f", "l", "a@b.com", "H", "user"⟩] "a@b.com"
      = some ⟨1, "n", "f", "l", "a@b.com", "H", "user"⟩ ∧
    login (fun _ _ => false) "k" [⟨1, "n", "f", "l", "a@b.com", "H", "user"⟩]
        ⟨"x@y.com", "pw1"⟩ 0 "jA" "jR"
      = login (fun _ _ => false) "k" [⟨1, "n", "f", "l", "a@b.com", "H", "user"⟩]
        ⟨"a@b.com", "pw2"⟩ 0 "jA" "jR" :=
  ⟨by decide, by decide,
   (c5_login_indistinguishable (fun _ _ => false) "k"
      [⟨1, "n", "f", "l", "a@b.com", "H", "user"⟩] "x@y.com" "pw1" "a@b.com" "pw2"
      0 "jA" "jR" ⟨1, "n", "f", "l", "a@b.com", "H", "user"⟩
      (by decide) (by decide) (by decide)).2.2⟩

/-- C6 counterexample: a request with no bearer credential is rejected by
the gate with status 403 (the HTTPBearer default), not the 401 the spec
assigns to a missing token. -/
theorem c6_counterexample :
    tokenBearerCall .accessOnly "k" RedisStore.empty 0 ⟨none⟩
      = .error ⟨403, "Not authenticated"⟩ ∧ (403 : Nat) ≠ 401 :=
  ⟨by decide, by decide⟩

/-- C6 amended: every failure cause maps to a fixed status — missing
bearer credential → 403 (HTTPBearer, amended from 401), undecodable
(malformed, bad signature or expired) token → 401, wrong token kind → 400,
revoked → 403, role not permitted → 403, invalid login credentials → 401,
duplicate signup email → 403, over-long secret → 400. -/
theorem c6_error_status_mapping (key : String) :
    (∀ (kind : BearerKind) (store : RedisStore) (now : Nat),
      tokenBearerCall kind key store now ⟨none⟩
        = .error ⟨403, "Not authenticated"⟩) ∧
    (∀ (kind : BearerKind) (store : RedisStore) (now : Nat) (tok : Token),
      decode_token key tok now = none →
      tokenBearerCall kind key store now ⟨some ⟨"Bearer", tok⟩⟩
        = .error ⟨401, "invalid token"⟩) ∧
    (∀ (store : RedisStore) (now : Nat) (p : Payload),
      now < p.exp → is_revoked store now p.jti = false → p.refresh = true →
      tokenBearerCall .accessOnly key store now ⟨some ⟨"Bearer", .signed p key⟩⟩
        = .error ⟨400, "access token required"⟩) ∧
    (∀ (store : RedisStore) (now : Nat) (p : Payload),
      now < p.exp → is_revoked store now p.jti = false → p.refresh = false →
      tokenBearerCall .refreshOnly key store now ⟨some ⟨"Bearer", .signed p key⟩⟩
        = .error ⟨400, "refresh token requried"⟩) ∧
    (∀ (kind : BearerKind) (store : RedisStore) (now : Nat) (p : Payload),
      now < p.exp → is_revoked store now p.jti = true →
      tokenBearerCall kind key store now ⟨some ⟨"Bearer", .signed p key⟩⟩
        = .error ⟨403, "token revoked login again"⟩) ∧
    (∀ (allowed : List String) (u : DBUser), u.role ∉ allowed →
      roleChecker allowed u = .error ⟨403, "you are not authorized"⟩) ∧
    (∀ (verify : String → String → Bool) (db : List DBUser) (ld : UserLogin)
        (now : Nat) (jA jR : String),
      verify_login verify db ld = none →
      login verify key db ld now jA jR = .error ⟨401, "invalid credentials"⟩) ∧
    (∀ (hashFn : String → String) (db : List DBUser) (ud : UserCreate) (uid : Uuid),
      user_exists db ud.email = true →
      signup hashFn db ud uid = .error ⟨403, "user with email already exists"⟩) ∧
    (∀ (hashFn : String → String) (db : List DBUser) (ud : UserCreate) (uid : Uuid),
      user_exists db ud.email = false → ud.password.utf8ByteSize > 72 →
      signup hashFn db ud uid
        = .error ⟨400, "password too long for bcrypt (max 72 bytes)"⟩) := by
  refine ⟨?_, ?_, ?_, ?_, ?_, ?_, ?_, ?_, ?_⟩
  · intro kind store now
    simp [tokenBearerCall, httpBearer]
  · intro kind store now tok hdec
    simp [tokenBearerCall, httpBearer_bearer, hdec]
  · intro store now p hexp hrev hr
    rw [tokenBearerCall_signed_valid .accessOnly key store now p hexp]
    simp [hrev, verify_token, hr]
  · intro store now p hexp hrev hr
    rw [tokenBearerCall_signed_valid .refreshOnly key store now p hexp]
    simp [hrev, verify_token, hr]
  · intro kind store now p hexp hrev
    rw [tokenBearerCall_signed_valid kind key store now p hexp]
    simp [hrev]
  · intro allowed u hrole
    simp [roleChecker, hrole]
  · intro verify db ld now jA jR hv
    simp [login, hv]
  · intro hashFn db ud uid hdup
    simp [signup, hdup]
  · intro hashFn db ud uid hdup hlen
    simp [signup, hdup, hash_password, hlen]

theorem c6_error_status_mapping_witness :
    decode_token "k" (.malformed "zzz") 0 = none ∧
    tokenBearerCall .accessOnly "k" RedisStore.empty 0
      ⟨some ⟨"Bearer", .malformed "zzz"⟩⟩ = .error ⟨401, "invalid token"⟩ ∧
    roleChecker ["admin"] ⟨1, "n", "f", "l", "a@b.com", "H", "user"⟩
      = .error ⟨403, "you are not authorized"⟩ ∧
    signup (fun _ => "H") [⟨1, "n", "f", "l", "a@b.com", "H", "user"⟩]
        ⟨"n2", "f2", "l2", "a@b.com", "password1"⟩ 2
      = .error ⟨403, "user with email already exists"⟩ ∧
    signup (fun _ => "H") [] ⟨"n2", "f2", "l2", "c@d.com",
        "✓✓✓✓✓✓✓✓✓✓✓✓✓✓✓✓✓✓✓✓✓✓✓✓✓"⟩ 2
      = .error ⟨400, "password too long for bcrypt (max 72 bytes)"⟩ :=
  ⟨by decide,
   (c6_error_status_mapping "k").2.1 .accessOnly RedisStore.empty 0
     (.malformed "zzz") (by decide),
   (c6_error_status_mapping "k").2.2.2.2.2.1 ["admin"]
     ⟨1, "n", "f", "l", "a@b.com", "H", "user"⟩ (by decide),
   (c6_error_status_mapping "k").2.2.2.2.2.2.2.1 (fun _ => "H")
     [⟨1, "n", "f", "l", "a@b.com", "H", "user"⟩]
     ⟨"n2", "f2", "l2", "a@b.com", "password1"⟩ 2 (by decide),
   (c6_error_status_mapping "k").2.2.2.2.2.2.2.2 (fun _ => "H") []
     ⟨"n2", "f2", "l2", "c@d.com", "✓✓✓✓✓✓✓✓✓✓✓✓✓✓✓✓✓✓✓✓✓✓✓✓✓"⟩ 2
     (by decide) (by decide)⟩

/-- C7: black_list_jti called with an expiration at or before the current
time leaves the revocation store untouched, and a second call on an
already-revoked identifier (while the entry is live) leaves the store
exactly as the first call left it. -/
theorem c7_blacklist_noop_idempotent (jti : String) (exp now now2 : Nat)
    (store : RedisStore) :
    (exp ≤ now → black_list_jti jti exp now store = store) ∧
    (now < exp → now2 < exp →
      black_list_jti jti exp now2 (black_list_jti jti exp now store)
        = black_list_jti jti exp now store) := by
  constructor
  · intro h
    have h1 : (exp : Int) - (now : Int) ≤ 0 := by omega
    simp [black_list_jti, h1]
  · intro h1 h2
    rw [black_list_jti_future jti exp now store h1,
        black_list_jti_future jti exp now2 _ h2]
    funext q
    by_cases hq : q = jti <;> simp [RedisStore.setEx, hq]

theorem c7_blacklist_noop_idempotent_witness :
    (5 : Nat) ≤ 10 ∧
    black_list_jti "j" 5 10 RedisStore.empty = RedisStore.empty ∧
    black_list_jti "j" 20 12 (black_list_jti "j" 20 10 RedisStore.empty)
      = black_list_jti "j" 20 10 RedisStore.empty :=
  ⟨by decide,
   (c7_blacklist_noop_idempotent "j" 5 10 10 RedisStore.empty).1 (by decide),
   (c7_blacklist_noop_idempotent "j" 20 10 12 RedisStore.empty).2
     (by decide) (by decide)⟩

/-- C8 counterexample: for the book with uid 5 owned by user 1, the PATCH
route rejects even the owner (uid string "1") with 403, because it compares
the uuid column value to a string; and the DELETE route rejects a requester
with uid string "2" (for instance an admin) with 403 — the admin role is
never consulted. -/
theorem c8_counterexample :
    update_book_route [⟨5, some 1, "t", "a"⟩] 5 ⟨none, none⟩
      ⟨⟨"1", "e", "n"⟩, 100, "j", false⟩
      = .error ⟨403, "only book owner is allowed to perform this"⟩ ∧
    delete_book_route [⟨5, some 1, "t", "a"⟩] 5 ⟨⟨"2", "e", "n"⟩, 100, "j", false⟩
      = .error ⟨403, "only book owner is allowed to perform this"⟩ :=
  ⟨by decide, by decide⟩

/-- C8 amended: book mutation checks ownership only and the admin role
grants no bypass; DELETE succeeds exactly when the requester uid string
equals the string form of the owner column and rejects every other
requester with 403; PATCH compares the raw uuid column value to the uid
string, which never matches, so PATCH of an existing book rejects every
requester, the owner included, with 403. -/
theorem c8_owner_only_mutation (books : List Book) (book_id : Uuid)
    (body : BookUpdate) (p : Payload) (bk : Book)
    (hfind : get_book_by_id books book_id = some bk) :
    update_book_route books book_id body p
      = .error ⟨403, "only book owner is allowed to perform this"⟩ ∧
    (pyStrOfUuidOpt bk.user_uid = p.user.uid →
      delete_book_route books book_id p = .ok "book deleted successfully") ∧
    (pyStrOfUuidOpt bk.user_uid ≠ p.user.uid →
      delete_book_route books book_id p
        = .error ⟨403, "only book owner is allowed to perform this"⟩) := by
  refine ⟨?_, fun h => ?_, fun h => ?_⟩
  · have hne : pyEq (pyOfUuidOpt bk.user_uid) (.pyStr p.user.uid) = false := by
      cases bk.user_uid <;> simp [pyOfUuidOpt, pyEq]
    simp [update_book_route, hfind, hne]
  · simp [delete_book_route, hfind, h]
  · simp [delete_book_route, hfind, h]

theorem c8_owner_only_mutation_witness :
    get_book_by_id [⟨5, some 1, "t", "a"⟩] 5 = some ⟨5, some 1, "t", "a"⟩ ∧
    update_book_route [⟨5, some 1, "t", "a"⟩] 5 ⟨none, none⟩
      ⟨⟨"1", "e", "n"⟩, 100, "j", false⟩
      = .error ⟨403, "only book owner is allowed to perform this"⟩ ∧
    delete_book_route [⟨5, some 1, "t", "a"⟩] 5 ⟨⟨"1", "e", "n"⟩, 100, "j", false⟩
      = .ok "book deleted successfully" :=
  ⟨by decide,
   (c8_owner_only_mutation [⟨5, some 1, "t", "a"⟩] 5 ⟨none, none⟩
      ⟨⟨"1", "e", "n"⟩, 100, "j", false⟩ ⟨5, some 1, "t", "a"⟩ (by decide)).1,
   (c8_owner_only_mutation [⟨5, some 1, "t", "a"⟩] 5 ⟨none, none⟩
      ⟨⟨"1", "e", "n"⟩, 100, "j", false⟩ ⟨5, some 1, "t", "a"⟩ (by decide)).2.1
     (by decide)⟩

/-- C9: decode_token is the total projection of jwt.decode — it returns
exactly the decoded payload on success and None on every failure, and any
two failing inputs (expired, malformed, bad signature) produce the same
observable result, so callers cannot tell the failure causes apart. -/
theorem c9_decode_token_total_collapse (key : String) :
    (∀ (tok : Token) (now : Nat),
      decode_token key tok now = (jwtDecode key tok now).toOption) ∧
    (∀ (tok : Token) (now : Nat) (e : JwtError),
      jwtDecode key tok now = .error e → decode_token key tok now = none) ∧
    (∀ (t1 t2 : Token) (n1 n2 : Nat) (e1 e2 : JwtError),
      jwtDecode key t1 n1 = .error e1 → jwtDecode key t2 n2 = .error e2 →
      decode_token key t1 n1 = decode_token key t2 n2) := by
  have herr : ∀ (tok : Token) (now : Nat) (e : JwtError),
      jwtDecode key tok now = .error e → decode_token key tok now = none := by
    intro tok now e h
    simp [decode_token, h]
  refine ⟨?_, herr, ?_⟩
  · intro tok now
    cases h : jwtDecode key tok now <;> simp [decode_token, h, Except.toOption]
  · intro t1 t2 n1 n2 e1 e2 h1 h2
    rw [herr t1 n1 e1 h1, herr t2 n2 e2 h2]

theorem c9_decode_token_total_collapse_witness :
    jwtDecode "k" (.signed ⟨⟨"u", "e", "n"⟩, 5, "j", false⟩ "k") 5
      = .error .expired ∧
    jwtDecode "k" (.malformed "zzz") 5 = .error .malformed ∧
    decode_token "k" (.signed ⟨⟨"u", "e", "n"⟩, 5, "j", false⟩ "k") 5
      = decode_token "k" (.malformed "zzz") 5 :=
  ⟨by decide, by decide,
   (c9_decode_token_total_collapse "k").2.2
     (.signed ⟨⟨"u", "e", "n"⟩, 5, "j", false⟩ "k") (.malformed "zzz") 5 5
     .expired .malformed (by decide) (by decide)⟩

/-- C10: the list endpoints reject an empty (filtered) collection with 404
"no books found" instead of returning an empty list, and return a
non-empty collection unchanged. -/
theorem c10_empty_collection_404 (books : List Book) (p : Payload) :
    (books = [] → get_books_route books = .error ⟨404, "no books found"⟩) ∧
    (books ≠ [] → get_books_route books = .ok books) ∧
    (get_books_by_user books p.user.uid = [] →
      get_my_books_route books p = .error ⟨404, "no books found"⟩) ∧
    (get_books_by_user books p.user.uid ≠ [] →
      get_my_books_route books p = .ok (get_books_by_user books p.user.uid)) := by
  refine ⟨fun h => ?_, fun h => ?_, fun h => ?_, fun h => ?_⟩
  · simp [get_books_route, h]
  · simp [get_books_route, List.isEmpty_iff, h]
  · simp [get_my_books_route, h]
  · simp [get_my_books_route, List.isEmpty_iff, h]

theorem c10_empty_collection_404_witness :
    get_books_route ([] : List Book) = .error ⟨404, "no books found"⟩ ∧
    get_books_route [⟨5, some 1, "t", "a"⟩] = .ok [⟨5, some 1, "t", "a"⟩] ∧
    get_my_books_route [⟨5, some 1, "t", "a"⟩] ⟨⟨"2", "e", "n"⟩, 100, "j", false⟩
      = .error ⟨404, "no books found"⟩ :=
  ⟨(c10_empty_collection_404 [] ⟨⟨"2", "e", "n"⟩, 100, "j", false⟩).1 rfl,
   (c10_empty_collection_404 [⟨5, some 1, "t", "a"⟩]
      ⟨⟨"2", "e", "n"⟩, 100, "j", false⟩).2.1 (by decide),
   (c10_empty_collection_404 [⟨5, some 1, "t", "a"⟩]
      ⟨⟨"2", "e", "n"⟩, 100, "j", false⟩).2.2.1 (by decide)⟩

end App
